import Mathlib

/-!
Shallow embedding of the BlueZ heart-rate profile plugin
(profiles/heartrate/heartrate.c) and verification of its specification.

The C file is single-threaded and callback-driven; every function modelled
here is a pure state transformer on the `Heartrate` session struct, with
reference counts of the shared collaborator objects (device, gatt_db,
gatt_client) threaded explicitly as a `Counts` record, and the raw
notification payload modelled as a byte environment `Nat → Nat` (the C code
receives a `const uint8_t *` pointer and no bound is enforced, so the
environment is total: reads past the end of the real payload hit
unspecified memory).
-/

namespace HRP

/-- Bit fields of `struct hrm_flag` (packed, LSB first):
`hr:1` (bit 0), `sc:2` (bits 1-2), `ee:1` (bit 3), `rr:1` (bit 4),
`rffu:3` (bits 5-7). -/
def flagHr (b : Nat) : Nat := b % 2

/-- Sensor-contact bits 1-2 of the flag byte. -/
def flagSc (b : Nat) : Nat := b / 2 % 4

/-- Energy-expended-present (secondary value) bit 3 of the flag byte. -/
def flagEe (b : Nat) : Nat := b / 8 % 2

/-- RR-interval-present (trailer) bit 4 of the flag byte. -/
def flagRr (b : Nat) : Nat := b / 16 % 2

/-- Reserved bits 5-7 of the flag byte. -/
def flagRffu (b : Nat) : Nat := b / 32 % 8

/-- The `struct heartrate` session record. Pointer fields become
`Option Nat` (a held handle identified by a number, or NULL); the
`uint16_t` characteristic handles are `Nat`; the `int` value fields are
`Int`. -/
structure Heartrate where
  device : Option Nat
  db : Option Nat
  client : Option Nat
  attr_service : Option Nat
  heart_rate_measurement_handle : Nat
  hrm_value : Int
  hrm_ee_value : Int
  body_sensor_location_handle : Nat
  bsl_value : Int
deriving DecidableEq, Repr

/-- Reference counts of the shared collaborator objects: how many
references the session side currently holds on the device, the attribute
database and the GATT client. -/
structure Counts where
  device : Nat
  db : Nat
  client : Nat
deriving DecidableEq, Repr

/-- `g_new0(struct heartrate, 1)`: a zero-initialised session. -/
def g_new0_heartrate : Heartrate :=
  { device := none, db := none, client := none, attr_service := none,
    heart_rate_measurement_handle := 0, hrm_value := 0, hrm_ee_value := 0,
    body_sensor_location_handle := 0, bsl_value := 0 }

/-- Modelled from the spec: `gatt_db_unref` lives in src/shared/gatt-db.c,
which is not part of the extracted sources; per §5 ("release exactly once
per acquire") and §8 ("no-op or defensive no-op on the second call") it
releases one attribute-tree reference and is a defensive no-op on a NULL
handle. -/
def gatt_db_unref (h : Option Nat) (c : Nat) : Nat :=
  match h with
  | none => c
  | some _ => c - 1

/-- Modelled from the spec: `bt_gatt_client_unref` lives in
src/shared/gatt-client.c, which is not part of the extracted sources; it
releases one rpc-client reference and is a defensive no-op on a NULL
handle (same §5/§8 discipline as `gatt_db_unref`). -/
def bt_gatt_client_unref (h : Option Nat) (c : Nat) : Nat :=
  match h with
  | none => c
  | some _ => c - 1

/-- `heartrate_reset`: clear `attr_service`, unref and NULL the `db`
handle, unref and NULL the `client` handle. Note that the two
characteristic handle fields and the decoded value fields are not
touched. -/
def heartrate_reset (p : Heartrate) (c : Counts) : Heartrate × Counts :=
  ({ p with attr_service := none, db := none, client := none },
   { c with db := gatt_db_unref p.db c.db,
            client := bt_gatt_client_unref p.client c.client })

/-- `parse_heartrate_measurement_value`: decode the measurement payload
into the session. `value` is the byte environment reached through the
`const uint8_t *` pointer; the C code never checks a length, so every
read the flag bits call for happens unconditionally. The 16-bit read
`*(const uint16_t *)(value + 1)` is little-endian. -/
def parse_heartrate_measurement_value (p : Heartrate) (value : Nat → Nat) : Heartrate :=
  let b := value 0
  if flagHr b = 0 then
    let p1 := { p with hrm_value := (value 1 : Int) }
    if flagEe b = 1 then { p1 with hrm_ee_value := (value 2 : Int) } else p1
  else
    let p1 := { p with hrm_value := ((value 1 : Int) + 256 * (value 2 : Int)) }
    if flagEe b = 1 then { p1 with hrm_ee_value := (value 3 : Int) } else p1

/-- Outcome of the notification callback: either the measurement branch
ran the decoder (carrying the updated session), or the
body-sensor-location branch accepted the notification with no effect, or
the `g_assert_not_reached()` branch fired. -/
inductive NotifyOutcome
  | parsed (p : Heartrate)
  | ignoredBsl
  | assertNotReached
deriving DecidableEq, Repr

/-- `hrp_io_value_cb`: route a delivered notification `(value_handle,
value)` by comparing against the two stored characteristic handles;
anything else hits `g_assert_not_reached()`. -/
def hrp_io_value_cb (value_handle : Nat) (value : Nat → Nat) (p : Heartrate) :
    NotifyOutcome :=
  if value_handle = p.heart_rate_measurement_handle then
    .parsed (parse_heartrate_measurement_value p value)
  else if value_handle = p.body_sensor_location_handle then
    .ignoredBsl
  else
    .assertNotReached

/-- `read_body_sensor_location_cb`: on read completion, stop if the read
failed or the payload is empty; otherwise store byte 0 as `bsl_value` and
issue `bt_gatt_client_register_notify` for the stored handle. The
returned Bool records whether the subscription request was issued. -/
def read_body_sensor_location_cb (success : Bool) (value : List Nat) (p : Heartrate) :
    Heartrate × Bool :=
  if success = false then (p, false)
  else if value.length = 0 then (p, false)
  else ({ p with bsl_value := (value.headD 0 : Int) }, true)

/-- The characteristic UUIDs `handle_characteristic` compares against. -/
inductive CharKind
  | hrm
  | bsl
  | hrcp
  | unknown
deriving DecidableEq, Repr

/-- Characteristic metadata as returned by
`gatt_db_attribute_get_char_data`: its UUID and its value handle. -/
structure CharInfo where
  kind : CharKind
  value_handle : Nat
deriving DecidableEq, Repr

/-- The asynchronous requests issued during a discovery pass, in order:
handles passed to `bt_gatt_client_register_notify` and to
`bt_gatt_client_read_value`. -/
structure Effects where
  subscribes : List Nat
  reads : List Nat
deriving DecidableEq, Repr

/-- `handle_heartrate_measurement`: store the value handle and register
for notifications on it. -/
def handle_heartrate_measurement (p : Heartrate) (eff : Effects) (vh : Nat) :
    Heartrate × Effects :=
  let p1 := { p with heart_rate_measurement_handle := vh }
  (p1, { eff with subscribes := eff.subscribes ++ [p1.heart_rate_measurement_handle] })

/-- `handle_body_sensor_location`: store the value handle and issue a
read request for it (the read-then-subscribe flow; the subscribe happens
later in `read_body_sensor_location_cb`). -/
def handle_body_sensor_location (p : Heartrate) (eff : Effects) (vh : Nat) :
    Heartrate × Effects :=
  let p1 := { p with body_sensor_location_handle := vh }
  (p1, { eff with reads := eff.reads ++ [p1.body_sensor_location_handle] })

/-- `handle_characteristic`: dispatch one discovered characteristic by
UUID; the control point is recognised but unhandled, unknown UUIDs are
logged and skipped. -/
def handle_characteristic (acc : Heartrate × Effects) (ch : CharInfo) :
    Heartrate × Effects :=
  match ch.kind with
  | .hrm => handle_heartrate_measurement acc.1 acc.2 ch.value_handle
  | .bsl => handle_body_sensor_location acc.1 acc.2 ch.value_handle
  | .hrcp => acc
  | .unknown => acc

/-- `handle_hrp_service` / `gatt_db_service_foreach_char`: dispatch every
characteristic of the bound service. -/
def handle_hrp_service (p : Heartrate) (eff : Effects) (chars : List CharInfo) :
    Heartrate × Effects :=
  chars.foldl handle_characteristic (p, eff)

/-- `foreach_hrp_service`: bind the first matching service instance as
`attr_service` and run characteristic discovery on it; a second instance
is logged and ignored. -/
def foreach_hrp_service (acc : Heartrate × Effects) (svc : Nat × List CharInfo) :
    Heartrate × Effects :=
  if acc.1.attr_service.isSome then acc
  else
    let p1 := { acc.1 with attr_service := some svc.1 }
    handle_hrp_service p1 acc.2 svc.2

/-- `heartrate_probe`: fail (and leave everything alone) if a session
already exists for the device, otherwise allocate a zero-initialised
session holding a fresh device reference. `dev` is the device handle,
`userData` the current `btd_service_get_user_data` content. -/
def heartrate_probe (userData : Option Heartrate) (dev : Nat) (c : Counts) :
    Int × Option Heartrate × Counts :=
  match userData with
  | some p => (-1, some p, c)
  | none =>
      (0, some { g_new0_heartrate with device := some dev },
       { c with device := c.device + 1 })

/-- `heartrate_accept`: acquire the attribute database (`gatt_db_ref`)
and a clone of the GATT client, walk the service instances matching the
HRP UUID, and fail with a full `heartrate_reset` if none bound
`attr_service`. `services` is the list the collaborator
`gatt_db_foreach_service` iteration would deliver: each element is a
service attribute id paired with its characteristics. -/
def heartrate_accept (userData : Option Heartrate) (c : Counts)
    (dbId clientId : Nat) (services : List (Nat × List CharInfo)) :
    Int × Option Heartrate × Counts × Effects :=
  match userData with
  | none => (-1, none, c, ⟨[], []⟩)
  | some p =>
      let p1 := { p with db := some dbId, client := some clientId }
      let c1 := { c with db := c.db + 1, client := c.client + 1 }
      let r := services.foldl foreach_hrp_service (p1, ⟨[], []⟩)
      if r.1.attr_service.isNone then
        let r2 := heartrate_reset r.1 c1
        (-1, some r2.1, r2.2, r.2)
      else
        (0, some r.1, c1, r.2)

/-- `heartrate_disconnect`: unconditionally reset the session and report
success. -/
def heartrate_disconnect (p : Heartrate) (c : Counts) : Int × Heartrate × Counts :=
  let r := heartrate_reset p c
  (0, r.1, r.2)

/-- The byte environment whose in-bounds part is a given list (reads past
the end return 0; used only where every read is in bounds, or where both
compared environments agree out of bounds). -/
def memOf (l : List Nat) : Nat → Nat := fun i => l.getD i 0

/-- The byte environment `mem` agrees with the payload list `l` on every
in-bounds index. -/
def agreesOn (l : List Nat) (mem : Nat → Nat) : Prop :=
  ∀ i, i < l.length → mem i = l.getD i 0

theorem agreesOn_memOf (l : List Nat) : agreesOn l (memOf l) :=
  fun _ _ => rfl

/-- The error type of the specified decoder. -/
inductive DecodeError
  | Empty
  | Truncated
deriving DecidableEq, Repr

/-- The record the specified decoder produces: primary value, optional
secondary value, sensor-contact status, trailer-present flag. -/
structure MeasurementRecord where
  primary : Nat
  secondary : Option Nat
  sensorContact : Nat
  trailerPresent : Bool
deriving DecidableEq, Repr

/-- The decoder exactly as the specification words it (§4.1), for
comparison with `parse_heartrate_measurement_value`: fail `Empty` on a
zero-length input; read the value-format bit; 8-bit value at byte 1 or,
requiring at least 3 bytes, little-endian 16-bit at bytes 1-2; if the
secondary-value bit is set require one more byte at the next offset;
missing required bytes fail `Truncated`. -/
def decode_spec (l : List Nat) : Except DecodeError MeasurementRecord :=
  match l with
  | [] => .error .Empty
  | b :: rest =>
      if flagHr b = 0 then
        match rest with
        | [] => .error .Truncated
        | v :: rest2 =>
            if flagEe b = 1 then
              match rest2 with
              | [] => .error .Truncated
              | s :: _ => .ok ⟨v, some s, flagSc b, flagRr b = 1⟩
            else
              .ok ⟨v, none, flagSc b, flagRr b = 1⟩
      else
        match rest with
        | v0 :: v1 :: rest2 =>
            if flagEe b = 1 then
              match rest2 with
              | [] => .error .Truncated
              | s :: _ => .ok ⟨v0 + 256 * v1, some s, flagSc b, flagRr b = 1⟩
            else
              .ok ⟨v0 + 256 * v1, none, flagSc b, flagRr b = 1⟩
        | _ => .error .Truncated

/-- Byte environment matching payload `[0x01]` with zeroes past the end. -/
def oobMem1 : Nat → Nat := fun i => if i = 0 then 1 else 0

/-- Byte environment matching payload `[0x01]` with a 5 at out-of-bounds
index 1. -/
def oobMem2 : Nat → Nat := fun i => if i = 0 then 1 else if i = 1 then 5 else 0

theorem parse_eq (p : Heartrate) (mem : Nat → Nat) :
    parse_heartrate_measurement_value p mem =
      if flagHr (mem 0) = 0 then
        if flagEe (mem 0) = 1 then
          { p with hrm_value := (mem 1 : Int), hrm_ee_value := (mem 2 : Int) }
        else { p with hrm_value := (mem 1 : Int) }
      else
        if flagEe (mem 0) = 1 then
          { p with hrm_value := (mem 1 : Int) + 256 * (mem 2 : Int),
                   hrm_ee_value := (mem 3 : Int) }
        else { p with hrm_value := (mem 1 : Int) + 256 * (mem 2 : Int) } := by
  unfold parse_heartrate_measurement_value
  by_cases h1 : flagHr (mem 0) = 0 <;> by_cases h2 : flagEe (mem 0) = 1 <;>
    simp [h1, h2]

/-- C1: if bit0 of byte 0 is 0, the primary value is byte 1 (unsigned
8-bit) and the secondary value, when bit3 is set, is byte 2; if bit0 is
1, the primary value is the little-endian 16-bit integer at bytes 1-2 and
the secondary value, when bit3 is set, is byte 3; in particular
`[0x09, 0x64, 0x00, 0x05]` decodes to primary 100 and secondary 5. -/
theorem measurement_decode_fields (l : List Nat) (mem : Nat → Nat) (p : Heartrate)
    (hag : agreesOn l mem) :
    (flagHr (l.getD 0 0) = 0 → 2 ≤ l.length →
      (parse_heartrate_measurement_value p mem).hrm_value = (l.getD 1 0 : Int) ∧
      (flagEe (l.getD 0 0) = 1 → 3 ≤ l.length →
        (parse_heartrate_measurement_value p mem).hrm_ee_value = (l.getD 2 0 : Int))) ∧
    (flagHr (l.getD 0 0) = 1 → 3 ≤ l.length →
      (parse_heartrate_measurement_value p mem).hrm_value
          = (l.getD 1 0 : Int) + 256 * (l.getD 2 0 : Int) ∧
      (flagEe (l.getD 0 0) = 1 → 4 ≤ l.length →
        (parse_heartrate_measurement_value p mem).hrm_ee_value = (l.getD 3 0 : Int))) ∧
    (l = [9, 100, 0, 5] →
      (parse_heartrate_measurement_value p mem).hrm_value = 100 ∧
      (parse_heartrate_measurement_value p mem).hrm_ee_value = 5) := by
  refine ⟨?_, ?_, ?_⟩
  · intro hhr hlen
    have h0 : mem 0 = l.getD 0 0 := hag 0 (by omega)
    have h1 : mem 1 = l.getD 1 0 := hag 1 (by omega)
    rw [parse_eq, h0, h1, if_pos hhr]
    constructor
    · split <;> rfl
    · intro hee _hlen3
      have h2 : mem 2 = l.getD 2 0 := hag 2 (by omega)
      rw [if_pos hee, h2]
  · intro hhr hlen
    have hne : ¬ flagHr (l.getD 0 0) = 0 := by omega
    have h0 : mem 0 = l.getD 0 0 := hag 0 (by omega)
    have h1 : mem 1 = l.getD 1 0 := hag 1 (by omega)
    have h2 : mem 2 = l.getD 2 0 := hag 2 (by omega)
    rw [parse_eq, h0, h1, h2, if_neg hne]
    constructor
    · split <;> rfl
    · intro hee _hlen4
      have h3 : mem 3 = l.getD 3 0 := hag 3 (by omega)
      rw [if_pos hee, h3]
  · intro hl
    subst hl
    have h0 : mem 0 = 9 := hag 0 (by decide)
    have h1 : mem 1 = 100 := hag 1 (by decide)
    have h2 : mem 2 = 0 := hag 2 (by decide)
    have h3 : mem 3 = 5 := hag 3 (by decide)
    rw [parse_eq, h0, h1, h2, h3, if_neg (by decide : ¬ flagHr 9 = 0),
      if_pos (by decide : flagEe 9 = 1)]
    exact ⟨rfl, rfl⟩

/-- C1 witness: the concrete input `[0x09, 0x64, 0x00, 0x05]` decodes to
primary value 100 and secondary value 5. -/
theorem measurement_decode_fields_witness :
    (parse_heartrate_measurement_value g_new0_heartrate (memOf [9, 100, 0, 5])).hrm_value
        = 100 ∧
    (parse_heartrate_measurement_value g_new0_heartrate (memOf [9, 100, 0, 5])).hrm_ee_value
        = 5 :=
  (measurement_decode_fields [9, 100, 0, 5] (memOf [9, 100, 0, 5])
      g_new0_heartrate (agreesOn_memOf _)).2.2 rfl

/-- C2: the code decoder has no failure mode at all and reads past the
end of the input: on the 1-byte payload `[0x01]` (16-bit format declared)
it dereferences bytes 1 and 2 beyond the payload, so two memory
environments that agree on the entire payload yield different decoded
sessions, while the specified decoder returns `Truncated` there (and
`Empty` on the zero-length input). -/
theorem decoder_reads_past_end :
    agreesOn [1] oobMem1 ∧ agreesOn [1] oobMem2 ∧
    parse_heartrate_measurement_value g_new0_heartrate oobMem1 ≠
      parse_heartrate_measurement_value g_new0_heartrate oobMem2 ∧
    decode_spec [1] = .error .Truncated ∧
    decode_spec [] = .error .Empty := by
  refine ⟨?_, ?_, ?_, rfl, rfl⟩
  · intro i hi
    have : i = 0 := by simpa using hi
    subst this; rfl
  · intro i hi
    have : i = 0 := by simpa using hi
    subst this; rfl
  · decide

/-- C8: the reserved bits 5-7 of the flag byte never affect the result:
two equal-length payloads that differ only in bits 5-7 of byte 0 yield
the same decoded session and the same sensor-contact status (the decoder
has no error outcomes). -/
theorem reserved_bits_ignored (p : Heartrate) (l1 l2 : List Nat)
    (_hlen : l1.length = l2.length)
    (h0 : l1.getD 0 0 % 32 = l2.getD 0 0 % 32)
    (hrest : ∀ i, 0 < i → l1.getD i 0 = l2.getD i 0) :
    parse_heartrate_measurement_value p (memOf l1)
        = parse_heartrate_measurement_value p (memOf l2) ∧
    flagSc (l1.getD 0 0) = flagSc (l2.getD 0 0) := by
  have hm0 : memOf l1 0 = l1.getD 0 0 := rfl
  have hm0' : memOf l2 0 = l2.getD 0 0 := rfl
  have hhr : flagHr (l1.getD 0 0) = flagHr (l2.getD 0 0) := by
    unfold flagHr; omega
  have hee : flagEe (l1.getD 0 0) = flagEe (l2.getD 0 0) := by
    unfold flagEe; omega
  have hsc : flagSc (l1.getD 0 0) = flagSc (l2.getD 0 0) := by
    unfold flagSc; omega
  refine ⟨?_, hsc⟩
  have e1 : memOf l1 1 = memOf l2 1 := hrest 1 (by omega)
  have e2 : memOf l1 2 = memOf l2 2 := hrest 2 (by omega)
  have e3 : memOf l1 3 = memOf l2 3 := hrest 3 (by omega)
  rw [parse_eq, parse_eq, hm0, hm0', hhr, hee, e1, e2, e3]

/-- C8 witness: the concrete inputs `[0x00, 0x48]` and `[0xE0, 0x48]`
decode identically. -/
theorem reserved_bits_ignored_witness :
    parse_heartrate_measurement_value g_new0_heartrate (memOf [0, 72])
        = parse_heartrate_measurement_value g_new0_heartrate (memOf [224, 72]) ∧
    flagSc 0 = flagSc 224 :=
  reserved_bits_ignored g_new0_heartrate [0, 72] [224, 72] rfl (by decide)
    (by
      intro i hi
      match i with
      | 0 => omega
      | 1 => rfl
      | n + 2 => simp [List.getD])

/-- C10: when the secondary-value bit (bit3 of byte 0) is clear, decoding
assigns the primary value and leaves every other session field — in
particular a previously stored secondary value — unchanged. -/
theorem no_secondary_leaves_ee (p : Heartrate) (mem : Nat → Nat)
    (h : flagEe (mem 0) = 0) :
    (parse_heartrate_measurement_value p mem).hrm_ee_value = p.hrm_ee_value ∧
    (parse_heartrate_measurement_value p mem).device = p.device ∧
    (parse_heartrate_measurement_value p mem).db = p.db ∧
    (parse_heartrate_measurement_value p mem).client = p.client ∧
    (parse_heartrate_measurement_value p mem).attr_service = p.attr_service ∧
    (parse_heartrate_measurement_value p mem).heart_rate_measurement_handle
        = p.heart_rate_measurement_handle ∧
    (parse_heartrate_measurement_value p mem).body_sensor_location_handle
        = p.body_sensor_location_handle ∧
    (parse_heartrate_measurement_value p mem).bsl_value = p.bsl_value := by
  have hne : ¬ flagEe (mem 0) = 1 := by omega
  rw [parse_eq]
  by_cases hhr : flagHr (mem 0) = 0 <;> simp [hhr, hne]

/-- C10 witness: decoding `[0x00, 0x48]` (secondary bit clear) over a
session holding a stale secondary value 42 keeps that value. -/
theorem no_secondary_leaves_ee_witness :
    (parse_heartrate_measurement_value
        { g_new0_heartrate with hrm_ee_value := 42 } (memOf [0, 72])).hrm_ee_value
      = 42 :=
  (no_secondary_leaves_ee { g_new0_heartrate with hrm_ee_value := 42 }
      (memOf [0, 72]) (by decide)).1

/-- A bound session with nonzero characteristic handles, used to exhibit
what `heartrate_reset` leaves behind. -/
def boundSession : Heartrate :=
  { g_new0_heartrate with
      device := some 0, db := some 1, client := some 2, attr_service := some 3,
      heart_rate_measurement_handle := 5, body_sensor_location_handle := 7 }

/-- C3 counterexample: resetting a bound session whose measurement handle
is 5 and whose auxiliary-value handle is 7 leaves both characteristic
handles in place — they are not cleared as the claim states. -/
theorem reset_keeps_char_handles_cex :
    (heartrate_reset boundSession ⟨1, 1, 1⟩).1.heart_rate_measurement_handle = 5 ∧
    (heartrate_reset boundSession ⟨1, 1, 1⟩).1.body_sensor_location_handle = 7 := by
  decide

/-- C3 (amended): every `heartrate_reset` clears `attr_service`, releases
and NULLs the `db` and `client` handles (the reference counts drop by one
exactly when a handle was held), but leaves both characteristic handles
unchanged; and `heartrate_disconnect` performs exactly this reset. -/
theorem reset_clears_transient_handles (p : Heartrate) (c : Counts) :
    (heartrate_reset p c).1.attr_service = none ∧
    (heartrate_reset p c).1.db = none ∧
    (heartrate_reset p c).1.client = none ∧
    (∀ d, p.db = some d → (heartrate_reset p c).2.db = c.db - 1) ∧
    (p.db = none → (heartrate_reset p c).2.db = c.db) ∧
    (∀ d, p.client = some d → (heartrate_reset p c).2.client = c.client - 1) ∧
    (p.client = none → (heartrate_reset p c).2.client = c.client) ∧
    (heartrate_reset p c).1.heart_rate_measurement_handle
        = p.heart_rate_measurement_handle ∧
    (heartrate_reset p c).1.body_sensor_location_handle
        = p.body_sensor_location_handle ∧
    heartrate_disconnect p c = (0, (heartrate_reset p c).1, (heartrate_reset p c).2) := by
  refine ⟨rfl, rfl, rfl, ?_, ?_, ?_, ?_, rfl, rfl, rfl⟩
  · intro d hd
    simp [heartrate_reset, gatt_db_unref, hd]
  · intro hd
    simp [heartrate_reset, gatt_db_unref, hd]
  · intro d hd
    simp [heartrate_reset, bt_gatt_client_unref, hd]
  · intro hd
    simp [heartrate_reset, bt_gatt_client_unref, hd]

/-- C3 witness: resetting the concrete bound session releases one db
reference and one client reference. -/
theorem reset_clears_transient_handles_witness :
    (heartrate_reset boundSession ⟨1, 1, 1⟩).2.db = 0 ∧
    (heartrate_reset boundSession ⟨1, 1, 1⟩).2.client = 0 :=
  ⟨(reset_clears_transient_handles boundSession ⟨1, 1, 1⟩).2.2.2.1 1 rfl,
   (reset_clears_transient_handles boundSession ⟨1, 1, 1⟩).2.2.2.2.2.1 2 rfl⟩

/-- C4: probing a device with no existing session succeeds and installs a
zero-initialised session holding a fresh device reference; probing again
while a session exists returns the error and leaves the session and every
reference count unchanged. -/
theorem probe_twice_rejected (p : Heartrate) (dev : Nat) (c : Counts) :
    heartrate_probe none dev c
        = (0, some { g_new0_heartrate with device := some dev },
           { c with device := c.device + 1 }) ∧
    heartrate_probe (some p) dev c = (-1, some p, c) :=
  ⟨rfl, rfl⟩

/-- C5: an accept on a probed session (empty transient handles) that
finds zero matching service instances fails, and the whole call leaves
the session, the reference counts and the request log exactly as they
were: the db and client references acquired during the accept are
released again by the reset on the failure path. -/
theorem accept_no_service_atomic (p : Heartrate) (c : Counts) (dbId clientId : Nat)
    (hdb : p.db = none) (hcl : p.client = none) (hsvc : p.attr_service = none) :
    heartrate_accept (some p) c dbId clientId [] = (-1, some p, c, ⟨[], []⟩) := by
  obtain ⟨dev, db, cl, svc, mh, hv, ev, bh, bv⟩ := p
  simp only at hdb hcl hsvc
  subst hdb hcl hsvc
  simp [heartrate_accept, heartrate_reset, gatt_db_unref, bt_gatt_client_unref]

/-- C5 witness: the concrete freshly probed session with reference counts
(1, 0, 0) is returned unchanged by an accept that finds no service. -/
theorem accept_no_service_atomic_witness :
    heartrate_accept (some { g_new0_heartrate with device := some 0 })
        ⟨1, 0, 0⟩ 10 11 []
      = (-1, some { g_new0_heartrate with device := some 0 }, ⟨1, 0, 0⟩, ⟨[], []⟩) :=
  accept_no_service_atomic { g_new0_heartrate with device := some 0 }
    ⟨1, 0, 0⟩ 10 11 rfl rfl rfl

/-- C6: if the auxiliary-value read completes with failure, no
subscription is issued and the session is untouched; if it completes
successfully with a non-empty payload, byte 0 is stored as the auxiliary
value and the subscription request is issued. -/
theorem read_bsl_then_subscribe (success : Bool) (value : List Nat) (p : Heartrate) :
    (success = false → read_body_sensor_location_cb success value p = (p, false)) ∧
    (success = true → 0 < value.length →
      read_body_sensor_location_cb success value p
        = ({ p with bsl_value := (value.headD 0 : Int) }, true)) := by
  constructor
  · intro hs
    simp [read_body_sensor_location_cb, hs]
  · intro hs hlen
    have hne : ¬ value.length = 0 := by omega
    simp [read_body_sensor_location_cb, hs, hne]

/-- C6 witness: a successful read of payload `[2]` stores auxiliary value
2 and issues the subscription; a failed read issues nothing. -/
theorem read_bsl_then_subscribe_witness :
    read_body_sensor_location_cb true [2] g_new0_heartrate
        = ({ g_new0_heartrate with bsl_value := 2 }, true) ∧
    read_body_sensor_location_cb false [2] g_new0_heartrate
        = (g_new0_heartrate, false) :=
  ⟨(read_bsl_then_subscribe true [2] g_new0_heartrate).2 rfl (by decide),
   (read_bsl_then_subscribe false [2] g_new0_heartrate).1 rfl⟩

/-- C7: a delivered notification for the stored measurement handle runs
the measurement decoder on the payload; one for the (distinct) stored
auxiliary-value handle is accepted with no effect; any other handle
reaches the `g_assert_not_reached` branch — never a silent drop. -/
theorem notify_routing (h : Nat) (mem : Nat → Nat) (p : Heartrate) :
    (h = p.heart_rate_measurement_handle →
      hrp_io_value_cb h mem p = .parsed (parse_heartrate_measurement_value p mem)) ∧
    (h ≠ p.heart_rate_measurement_handle → h = p.body_sensor_location_handle →
      hrp_io_value_cb h mem p = .ignoredBsl) ∧
    (h ≠ p.heart_rate_measurement_handle → h ≠ p.body_sensor_location_handle →
      hrp_io_value_cb h mem p = .assertNotReached) := by
  refine ⟨?_, ?_, ?_⟩
  · intro hm
    simp [hrp_io_value_cb, hm]
  · intro hm hb
    unfold hrp_io_value_cb
    rw [if_neg hm, if_pos hb]
  · intro hm hb
    unfold hrp_io_value_cb
    rw [if_neg hm, if_neg hb]

/-- C7 witness: with measurement handle 5 and auxiliary handle 7, a
notification for 5 is decoded, one for 7 is accepted with no effect, and
one for 9 hits the assertion branch. -/
theorem notify_routing_witness :
    hrp_io_value_cb 5 (memOf [0, 72]) boundSession
        = .parsed (parse_heartrate_measurement_value boundSession (memOf [0, 72])) ∧
    hrp_io_value_cb 7 (memOf [0, 72]) boundSession = .ignoredBsl ∧
    hrp_io_value_cb 9 (memOf [0, 72]) boundSession = .assertNotReached :=
  ⟨(notify_routing 5 (memOf [0, 72]) boundSession).1 rfl,
   (notify_routing 7 (memOf [0, 72]) boundSession).2.1 (by decide) rfl,
   (notify_routing 9 (memOf [0, 72]) boundSession).2.2 (by decide) (by decide)⟩

/-- C9: a second disconnect on an already-disconnected session is a
no-op: it returns the same session and the same reference counts, so
neither shared handle is released a second time. -/
theorem disconnect_idempotent (p : Heartrate) (c : Counts) :
    heartrate_disconnect (heartrate_disconnect p c).2.1 (heartrate_disconnect p c).2.2
      = (0, (heartrate_disconnect p c).2.1, (heartrate_disconnect p c).2.2) := by
  simp [heartrate_disconnect, heartrate_reset, gatt_db_unref, bt_gatt_client_unref]

end HRP
